import Mathlib

/-!
# Elementwise-binary operator of FlexFlow (src/ops/element_binary.cc)

A shallow embedding of the functions of `element_binary.cc`:

* `FFModel::binary` (layer construction and data-type unification),
* the constructor of `ElementBinary` and `ElementBinary::can_inplace_output`,
* `FFModel::get_or_create_element_binary_node` (the node cache),
* the launchers `ElementBinary::init`, `forward`, `backward`
  (the ordered region requirements they add), and
* the tasks `init_task`, `forward_task`, `backward_task`
  (their assertions and the region positions they read).

A failing `assert` is modelled by `none`: the process aborts and nothing is
produced.  Arrays (`dims[]`, `inputs[]`, `outputs[]`) are functions of the index.
-/

namespace FlexFlow

/-! ## Data model -/

/-- Modelled from the spec: the operator kinds (the enumeration OperatorType is
declared in ffconst.h, which is not under src).  The four elementwise-binary
kinds, and the cast kind that `FFModel::cast` gives its layer. -/
inductive OperatorType
  | OP_EW_ADD
  | OP_EW_SUB
  | OP_EW_MUL
  | OP_EW_DIV
  | OP_CAST
  deriving DecidableEq, Repr

/-- A value of the enumeration DataType, as its integer code: the source compares
data types with `<` and `>`, which compare the codes. -/
abbrev DataType := Int

/-- Modelled from the spec: the code of the single-precision data type (the
enumeration is declared in ffconst.h, not under src; the spec orders half below
float). -/
def DT_FLOAT : DataType := 44

/-- Modelled from the spec: one dimension entry of a partitioned tensor (the type
ParallelDim is declared in parallel_tensor.h, not under src): the extent and the
partition degree.  `==` and `!=` of the source are equality of entries. -/
structure ParallelDim where
  size : Int
  degree : Int
  deriving DecidableEq, Repr

/-- Legion handle of a logical region. -/
abbrev LogicalRegion := Nat

/-- Legion handle of a logical partition. -/
abbrev LogicalPartition := Nat

/-- The fields of ParallelTensorBase that `element_binary.cc` reads. -/
structure ParallelTensorBase where
  num_dims : Nat
  dims : Nat → ParallelDim
  data_type : DataType
  part : LogicalPartition
  region : LogicalRegion
  part_grad : LogicalPartition
  region_grad : LogicalRegion

/-- The fields of an ElementBinary operator (those of its base class Op included)
that the functions below read.  `has_same_operands` is set by the constructor of
Op, which is not under src, so it is a field here. -/
structure ElementBinary where
  op_type : OperatorType
  inputs : Nat → ParallelTensorBase
  outputs : Nat → ParallelTensorBase
  inplace_a : Bool
  has_same_operands : Bool
  profiling : Bool

/-! ## ElementBinary::can_inplace_output -/

/-- The loop of `can_inplace_output`:
`for (i = 0; i < inputs[0]->num_dims; i++) if (inputs[0]->dims[i] != outputs[0]->dims[i]) return false;`
followed by `return true`. -/
def can_inplace_output_dims (op : ElementBinary) : Bool :=
  (List.range (op.inputs 0).num_dims).all
    (fun i => !(decide ((op.inputs 0).dims i ≠ (op.outputs 0).dims i)))

/-- `ElementBinary::can_inplace_output` (lines 129-142). -/
def can_inplace_output (op : ElementBinary) : Bool :=
  if op.op_type = OperatorType.OP_EW_ADD ∨ op.op_type = OperatorType.OP_EW_MUL then
    if (op.outputs 0).num_dims ≠ (op.inputs 0).num_dims then
      false
    else
      can_inplace_output_dims op
  else
    false

/-- `ElementBinary::has_inplace_output` (lines 144-147). -/
def has_inplace_output (op : ElementBinary) : Bool :=
  op.inplace_a

/-- `ElementBinary::do_inplace_output` (lines 149-152). -/
def do_inplace_output (op : ElementBinary) : ElementBinary :=
  { op with inplace_a := true }

/-! ## Region requirements and launchers -/

/-- Legion access modes used by the operator. -/
inductive PrivilegeMode
  | READ_ONLY
  | READ_WRITE
  | WRITE_ONLY
  deriving DecidableEq, Repr

/-- Legion field identifiers used by the operator. -/
inductive FieldID
  | FID_DATA
  deriving DecidableEq, Repr

/-- One of the operator's tensors, as the source names it: `inputs[i]` or
`outputs[i]`. -/
inductive TensorRef
  | input (i : Nat)
  | output (i : Nat)
  deriving DecidableEq, Repr

/-- A region requirement as the launchers build it.  Every requirement of the
source takes its partition and its parent region from one tensor `T`, either
`RegionRequirement(T->part, 0, mode, EXCLUSIVE, T->region)` (`grad = false`) or
`RegionRequirement(T->part_grad, 0, mode, EXCLUSIVE, T->region_grad)`
(`grad = true`); `privilege_fields` collects what `add_field` adds. -/
structure RegionRequirement where
  tensor : TensorRef
  grad : Bool
  privilege : PrivilegeMode
  privilege_fields : List FieldID
  deriving DecidableEq, Repr

/-- The tensor of the operator that a reference names. -/
def ElementBinary.tensor (op : ElementBinary) : TensorRef → ParallelTensorBase
  | TensorRef.input i => op.inputs i
  | TensorRef.output i => op.outputs i

/-- The logical partition a requirement names: `T->part` or `T->part_grad`. -/
def RegionRequirement.partition (r : RegionRequirement) (op : ElementBinary) : LogicalPartition :=
  if r.grad then (op.tensor r.tensor).part_grad else (op.tensor r.tensor).part

/-- The parent region a requirement names: `T->region` or `T->region_grad`. -/
def RegionRequirement.parent (r : RegionRequirement) (op : ElementBinary) : LogicalRegion :=
  if r.grad then (op.tensor r.tensor).region_grad else (op.tensor r.tensor).region

/-- The part of an IndexLauncher that the operator fills: its ordered region
requirements. -/
structure IndexLauncher where
  region_requirements : List RegionRequirement
  deriving DecidableEq, Repr

/-- A launcher as its constructor leaves it: no region requirement yet. -/
def IndexLauncher.new : IndexLauncher :=
  { region_requirements := [] }

/-- `launcher.add_region_requirement(RegionRequirement(T->part, 0, mode, EXCLUSIVE, T->region))`,
or the same with `part_grad` and `region_grad`: appends the requirement. -/
def IndexLauncher.add_region_requirement (l : IndexLauncher) (t : TensorRef) (grad : Bool)
    (mode : PrivilegeMode) : IndexLauncher :=
  { region_requirements := l.region_requirements ++ [⟨t, grad, mode, []⟩] }

/-- Adds a field to the requirement at position `idx` of a list of requirements
(no effect when there is none). -/
def add_field_at (fid : FieldID) : Nat → List RegionRequirement → List RegionRequirement
  | _, [] => []
  | 0, r :: rs => { r with privilege_fields := r.privilege_fields ++ [fid] } :: rs
  | idx + 1, r :: rs => r :: add_field_at fid idx rs

/-- `launcher.add_field(idx, fid)`. -/
def IndexLauncher.add_field (l : IndexLauncher) (idx : Nat) (fid : FieldID) : IndexLauncher :=
  { region_requirements := add_field_at fid idx l.region_requirements }

/-- The two assertions of the in-place branches of `init` and `forward`:
`outputs[0]->part == inputs[0]->part` and `outputs[0]->region == inputs[0]->region`. -/
def output_aliases_input0 (op : ElementBinary) : Prop :=
  (op.outputs 0).part = (op.inputs 0).part ∧ (op.outputs 0).region = (op.inputs 0).region

instance (op : ElementBinary) : Decidable (output_aliases_input0 op) := by
  unfold output_aliases_input0
  exact inferInstance

/-- `ElementBinary::init` (lines 154-200), up to the launch: the launcher it hands
to `execute_index_space`, or `none` when an assertion fails.  The result of
`check_output_input_weight_same_parallel_is()`, a method of Op that is not under
src, is the parameter `same_parallel_is`. -/
def init (op : ElementBinary) (same_parallel_is : Bool) : Option IndexLauncher :=
  if same_parallel_is = false then none
  else
    let launcher := IndexLauncher.new
    let rid := 0
    let launcher := launcher.add_region_requirement (TensorRef.input 0) false PrivilegeMode.READ_WRITE
    let launcher := launcher.add_field rid FieldID.FID_DATA
    let rid := rid + 1
    let step2 : IndexLauncher × Nat :=
      if op.has_same_operands = false then
        (((launcher.add_region_requirement (TensorRef.input 1) false PrivilegeMode.READ_WRITE).add_field
            rid FieldID.FID_DATA), rid + 1)
      else (launcher, rid)
    let launcher := step2.1
    let rid := step2.2
    if op.inplace_a = false then
      some ((launcher.add_region_requirement (TensorRef.output 0) false PrivilegeMode.WRITE_ONLY).add_field
        rid FieldID.FID_DATA)
    else if output_aliases_input0 op then some launcher
    else none

/-- `ElementBinary::forward` (lines 249-296), up to the launch: the launcher it
hands to `execute_index_space`, or `none` when an assertion fails. -/
def forward (op : ElementBinary) : Option IndexLauncher :=
  let launcher := IndexLauncher.new
  if op.inplace_a then
    if output_aliases_input0 op then
      let launcher := launcher.add_region_requirement (TensorRef.input 0) false PrivilegeMode.READ_WRITE
      let launcher := launcher.add_field 0 FieldID.FID_DATA
      if op.has_same_operands then
        some launcher
      else
        let launcher := launcher.add_region_requirement (TensorRef.input 1) false PrivilegeMode.READ_ONLY
        some (launcher.add_field 1 FieldID.FID_DATA)
    else none
  else
    let launcher := launcher.add_region_requirement (TensorRef.input 0) false PrivilegeMode.READ_ONLY
    let launcher := launcher.add_field 0 FieldID.FID_DATA
    if op.has_same_operands then
      let launcher := launcher.add_region_requirement (TensorRef.output 0) false PrivilegeMode.WRITE_ONLY
      some (launcher.add_field 1 FieldID.FID_DATA)
    else
      let launcher := launcher.add_region_requirement (TensorRef.input 1) false PrivilegeMode.READ_ONLY
      let launcher := launcher.add_field 1 FieldID.FID_DATA
      let launcher := launcher.add_region_requirement (TensorRef.output 0) false PrivilegeMode.WRITE_ONLY
      some (launcher.add_field 2 FieldID.FID_DATA)

/-- `ElementBinary::backward` (lines 369-432), up to the launch: the launcher it
hands to `execute_index_space`.  It has no assertion.  Both branches add the
requirements of `inputs[1]` under the test
`inputs[0]->region == inputs[1]->region`, as the source writes it. -/
def backward (op : ElementBinary) : IndexLauncher :=
  let launcher := IndexLauncher.new
  if op.inplace_a then
    let launcher := launcher.add_region_requirement (TensorRef.output 0) true PrivilegeMode.READ_WRITE
    let launcher := launcher.add_field 0 FieldID.FID_DATA
    let launcher := launcher.add_region_requirement (TensorRef.input 0) false PrivilegeMode.READ_ONLY
    let launcher := launcher.add_field 1 FieldID.FID_DATA
    if (op.inputs 0).region = (op.inputs 1).region then
      let launcher := launcher.add_region_requirement (TensorRef.input 1) false PrivilegeMode.READ_ONLY
      let launcher := launcher.add_field 2 FieldID.FID_DATA
      let launcher := launcher.add_region_requirement (TensorRef.input 1) true PrivilegeMode.READ_WRITE
      launcher.add_field 3 FieldID.FID_DATA
    else launcher
  else
    let launcher := launcher.add_region_requirement (TensorRef.output 0) true PrivilegeMode.READ_ONLY
    let launcher := launcher.add_field 0 FieldID.FID_DATA
    let launcher := launcher.add_region_requirement (TensorRef.input 0) false PrivilegeMode.READ_ONLY
    let launcher := launcher.add_field 1 FieldID.FID_DATA
    let launcher := launcher.add_region_requirement (TensorRef.input 0) true PrivilegeMode.READ_WRITE
    let launcher := launcher.add_field 2 FieldID.FID_DATA
    if (op.inputs 0).region = (op.inputs 1).region then
      let launcher := launcher.add_region_requirement (TensorRef.input 1) false PrivilegeMode.READ_ONLY
      let launcher := launcher.add_field 3 FieldID.FID_DATA
      let launcher := launcher.add_region_requirement (TensorRef.input 1) true PrivilegeMode.READ_WRITE
      launcher.add_field 4 FieldID.FID_DATA
    else launcher

/-- A tensor with the given region handles (data partition and region `p`, `r`;
gradient partition and region `pg`, `rg`) and a one-dimensional shape of extent
`n`; used to write concrete operators. -/
def tensor1d (n : Int) (p r pg rg : Nat) : ParallelTensorBase :=
  { num_dims := 1, dims := fun _ => ⟨n, 1⟩, data_type := DT_FLOAT,
    part := p, region := r, part_grad := pg, region_grad := rg }

/-- A tensor of shape [4,4] with the given region handles. -/
def tensor44 (p r pg rg : Nat) : ParallelTensorBase :=
  { num_dims := 2, dims := fun _ => ⟨4, 1⟩, data_type := DT_FLOAT,
    part := p, region := r, part_grad := pg, region_grad := rg }

/-- Scenario A of the spec: add over two distinct operands of extents [4,4], not
in-place; the operands and the output have regions of their own. -/
def scenarioA : ElementBinary :=
  { op_type := OperatorType.OP_EW_ADD,
    inputs := fun i => if i = 0 then tensor44 10 11 12 13 else tensor44 20 21 22 23,
    outputs := fun _ => tensor44 30 31 32 33,
    inplace_a := false,
    has_same_operands := false,
    profiling := false }

/-- Scenario B of the spec: in-place multiply of an operand of extents [8] with
itself; the output aliases the partition and the region of operand-1. -/
def scenarioB : ElementBinary :=
  { op_type := OperatorType.OP_EW_MUL,
    inputs := fun _ => tensor1d 8 10 11 12 13,
    outputs := fun _ => tensor1d 8 10 11 12 13,
    inplace_a := true,
    has_same_operands := true,
    profiling := false }

/-- An operator that is not in-place and whose two inputs are one tensor, so that
`inputs[0]->region == inputs[1]->region`. -/
def sameRegionOp : ElementBinary :=
  { op_type := OperatorType.OP_EW_ADD,
    inputs := fun _ => tensor1d 8 10 11 12 13,
    outputs := fun _ => tensor1d 8 30 31 32 33,
    inplace_a := false,
    has_same_operands := true,
    profiling := false }

/-- An operator that is not in-place and whose two inputs are distinct tensors
with distinct regions. -/
def distinctRegionOp : ElementBinary :=
  { op_type := OperatorType.OP_EW_ADD,
    inputs := fun i => if i = 0 then tensor1d 8 10 11 12 13 else tensor1d 8 20 21 22 23,
    outputs := fun _ => tensor1d 8 30 31 32 33,
    inplace_a := false,
    has_same_operands := false,
    profiling := false }

/-! ## Domains and the tasks -/

/-- A dense Legion domain: the inclusive bounds `(lo, hi)` of each of its
dimensions.  Two domains are equal (`==` of the source) when they have the same
dimension and the same bounds. -/
structure Domain where
  rect : List (Int × Int)
  deriving DecidableEq, Repr

/-- `domain.dim`. -/
def Domain.dim (d : Domain) : Nat :=
  d.rect.length

/-- `domain.lo()[i]`; a coordinate past the dimension reads 0, as in a
DomainPoint. -/
def Domain.lo (d : Domain) (i : Nat) : Int :=
  (d.rect.getD i (0, 0)).1

/-- `domain.hi()[i]`; a coordinate past the dimension reads 0, as in a
DomainPoint. -/
def Domain.hi (d : Domain) (i : Nat) : Int :=
  (d.rect.getD i (0, 0)).2

/-- Conversion of a 64-bit coordinate to `int` (32 bits, two's complement). -/
def toInt32 (x : Int) : Int :=
  Int.bmod x (2 ^ 32)

/-- The extent the tasks compute for dimension `i` of a domain:
`int dim_size = domain.hi()[i] - domain.lo()[i] + 1`. -/
def Domain.dim_size (d : Domain) (i : Nat) : Int :=
  toInt32 (d.hi i - d.lo i + 1)

/-- The dense domain with bounds `[0, n - 1]` in each dimension, for the extents
`n` of a list. -/
def Domain.ofExtents (extents : List Int) : Domain :=
  { rect := extents.map (fun n => (0, n - 1)) }

/-- ElementBinaryMeta: the per-shard state that `init_task` fills. -/
structure ElementBinaryMeta where
  op_type : OperatorType
  profiling : Bool
  inplace_a : Bool
  has_same_operands : Bool
  deriving DecidableEq, Repr

/-- Handle of a physical region (an entry of the vector `regions` of a task). -/
abbrev PhysicalRegion := Nat

/-- The loop of `init_task` that checks that the inputs can broadcast to the
output (lines 229-239): for every `i < output_domain.dim`, the assertion on input
1 when `i < input1_domain.dim` and the assertion on input 2 when
`i < input2_domain.dim`.  True when no assertion fails. -/
def init_task_broadcast_check (input1_domain input2_domain output_domain : Domain) : Bool :=
  (List.range output_domain.dim).all (fun i =>
    let output_dim_size := output_domain.dim_size i
    (if i < input1_domain.dim then
      (decide (input1_domain.dim_size i = output_dim_size) || decide (input1_domain.dim_size i = 1))
     else true) &&
    (if i < input2_domain.dim then
      (decide (input2_domain.dim_size i = output_dim_size) || decide (input2_domain.dim_size i = 1))
     else true))

/-- What `init_task` hands to `init_kernel`. -/
structure InitResult where
  m : ElementBinaryMeta
  input1_domain : Domain
  input2_domain : Domain
  output_domain : Domain
  num_regions : Nat
  deriving DecidableEq, Repr

/-- `ElementBinary::init_task` (lines 202-247).  `task_regions` holds the domain
of the index space of each `task->regions[k]`, `regions` the physical regions.
`none` when an assertion fails or a region that is not there is read. -/
def init_task (eb : ElementBinary) (task_regions : List Domain) (regions : List PhysicalRegion) :
    Option InitResult :=
  let m : ElementBinaryMeta :=
    { op_type := eb.op_type, profiling := eb.profiling, inplace_a := eb.inplace_a,
      has_same_operands := eb.has_same_operands }
  match task_regions[0]? with
  | none => none
  | some input1_domain =>
    let num_regions := 1
    let step2 : Option (Domain × Nat) :=
      if m.has_same_operands = false then
        (task_regions[num_regions]?).map (fun d => (d, num_regions + 1))
      else some (input1_domain, num_regions)
    match step2 with
    | none => none
    | some (input2_domain, num_regions) =>
      let step3 : Option (Domain × Nat) :=
        if m.inplace_a = false then
          match task_regions[num_regions]? with
          | none => none
          | some output_domain =>
            if init_task_broadcast_check input1_domain input2_domain output_domain then
              some (output_domain, num_regions + 1)
            else none
        else some (input1_domain, num_regions)
      match step3 with
      | none => none
      | some (output_domain, num_regions) =>
        if task_regions.length = regions.length ∧ regions.length = num_regions then
          some { m := m, input1_domain := input1_domain, input2_domain := input2_domain,
                 output_domain := output_domain, num_regions := num_regions }
        else none

/-- A pointer obtained by `helperGetTensorPointerRO/RW/WO<float>(regions[k],
task->regions[k], FID_DATA, ctx, runtime)`: the position `k` of the region it
points into, and the access mode of the helper. -/
structure TensorPointer where
  region : Nat
  accessor : PrivilegeMode
  deriving DecidableEq, Repr

/-- The pointers `forward_task` hands to the forward kernel. -/
structure ForwardPointers where
  in1_ptr : TensorPointer
  in2_ptr : TensorPointer
  out_ptr : TensorPointer
  deriving DecidableEq, Repr

/-- The operator-kind gate of `forward_task` (lines 315-318):
`if (in1_domain != in2_domain) assert(op_type == OP_EW_SUB || op_type == OP_EW_ADD)`.
True when the assertion does not fail. -/
def forward_task_kind_gate (m : ElementBinaryMeta) (in1_domain in2_domain : Domain) : Bool :=
  if in1_domain ≠ in2_domain then
    decide (m.op_type = OperatorType.OP_EW_SUB) || decide (m.op_type = OperatorType.OP_EW_ADD)
  else true

/-- `ElementBinary::forward_task` (lines 304-367), up to the kernel call.
`task_regions` holds the domain of the index space of each `task->regions[k]`,
`regions` the physical regions.  `none` when an assertion fails or a region that
is not there is read. -/
def forward_task (m : ElementBinaryMeta) (task_regions : List Domain)
    (regions : List PhysicalRegion) : Option ForwardPointers :=
  match task_regions[0]? with
  | none => none
  | some in1_domain =>
    let gate : Bool :=
      if m.has_same_operands = false then
        match task_regions[1]? with
        | none => false
        | some in2_domain => forward_task_kind_gate m in1_domain in2_domain
      else true
    if gate = false then none
    else if m.inplace_a then
      if m.has_same_operands then
        if regions.length = 1 ∧ task_regions.length = 1 then
          let out_ptr : TensorPointer := ⟨0, PrivilegeMode.READ_WRITE⟩
          some { in1_ptr := out_ptr, in2_ptr := out_ptr, out_ptr := out_ptr }
        else none
      else
        if regions.length = 2 ∧ task_regions.length = 2 then
          let out_ptr : TensorPointer := ⟨0, PrivilegeMode.READ_WRITE⟩
          let in2_ptr : TensorPointer := ⟨1, PrivilegeMode.READ_ONLY⟩
          some { in1_ptr := out_ptr, in2_ptr := in2_ptr, out_ptr := out_ptr }
        else none
    else
      if m.has_same_operands then
        if regions.length = 2 ∧ task_regions.length = 2 then
          match task_regions[1]? with
          | none => none
          | some out_domain =>
            if out_domain = in1_domain then
              let in1_ptr : TensorPointer := ⟨0, PrivilegeMode.READ_ONLY⟩
              some { in1_ptr := in1_ptr, in2_ptr := in1_ptr,
                     out_ptr := ⟨1, PrivilegeMode.WRITE_ONLY⟩ }
            else none
        else none
      else
        if regions.length = 3 ∧ task_regions.length = 3 then
          match task_regions[2]? with
          | none => none
          | some out_domain =>
            if out_domain = in1_domain then
              some { in1_ptr := ⟨0, PrivilegeMode.READ_ONLY⟩,
                     in2_ptr := ⟨1, PrivilegeMode.READ_ONLY⟩,
                     out_ptr := ⟨2, PrivilegeMode.WRITE_ONLY⟩ }
            else none
        else none

/-- The pointers `backward_task` hands to the backward kernel. -/
structure BackwardPointers where
  out_grad_ptr : TensorPointer
  in0_ptr : TensorPointer
  in1_ptr : TensorPointer
  in0_grad_ptr : TensorPointer
  in1_grad_ptr : TensorPointer
  deriving DecidableEq, Repr

/-- `ElementBinary::backward_task` (lines 441-514), up to the kernel call.
`task_regions` holds the domain of the index space of each `task->regions[k]`,
`regions` the physical regions.  `none` when an assertion fails or a region that
is not there is read.  In the in-place branch `out_grad_ptr` is the pointer
`in0_grad_ptr`, read-write into region 0. -/
def backward_task (m : ElementBinaryMeta) (task_regions : List Domain)
    (regions : List PhysicalRegion) : Option BackwardPointers :=
  match task_regions[0]? with
  | none => none
  | some out_grad_domain =>
    if m.inplace_a then
      let in0_grad_ptr : TensorPointer := ⟨0, PrivilegeMode.READ_WRITE⟩
      if (regions.length = 2 ∨ regions.length = 4) ∧ task_regions.length = regions.length then
        if regions.length = 2 then
          match task_regions[1]? with
          | none => none
          | some in0_domain =>
            if in0_domain = out_grad_domain then
              let in0_ptr : TensorPointer := ⟨1, PrivilegeMode.READ_ONLY⟩
              some { out_grad_ptr := in0_grad_ptr, in0_ptr := in0_ptr, in1_ptr := in0_ptr,
                     in0_grad_ptr := in0_grad_ptr, in1_grad_ptr := in0_grad_ptr }
            else none
        else
          match task_regions[1]?, task_regions[2]? with
          | some in0_domain, some _in1_domain =>
            if in0_domain = out_grad_domain then
              some { out_grad_ptr := in0_grad_ptr,
                     in0_ptr := ⟨1, PrivilegeMode.READ_ONLY⟩,
                     in1_ptr := ⟨2, PrivilegeMode.READ_ONLY⟩,
                     in0_grad_ptr := in0_grad_ptr,
                     in1_grad_ptr := ⟨3, PrivilegeMode.READ_WRITE⟩ }
            else none
          | _, _ => none
      else none
    else
      if (regions.length = 3 ∨ regions.length = 5) ∧ task_regions.length = regions.length then
        let out_grad_ptr : TensorPointer := ⟨0, PrivilegeMode.READ_ONLY⟩
        match task_regions[1]?, task_regions[2]? with
        | some in0_domain, some in0_grad_domain =>
          if out_grad_domain = in0_grad_domain ∧ out_grad_domain = in0_domain then
            let in0_ptr : TensorPointer := ⟨1, PrivilegeMode.READ_ONLY⟩
            let in0_grad_ptr : TensorPointer := ⟨2, PrivilegeMode.READ_WRITE⟩
            if regions.length = 3 then
              some { out_grad_ptr := out_grad_ptr, in0_ptr := in0_ptr, in1_ptr := in0_ptr,
                     in0_grad_ptr := in0_grad_ptr, in1_grad_ptr := in0_grad_ptr }
            else
              match task_regions[3]?, task_regions[4]? with
              | some in1_domain, some in1_grad_domain =>
                if in1_domain = in1_grad_domain then
                  some { out_grad_ptr := out_grad_ptr, in0_ptr := in0_ptr,
                         in1_ptr := ⟨3, PrivilegeMode.READ_ONLY⟩,
                         in0_grad_ptr := in0_grad_ptr,
                         in1_grad_ptr := ⟨4, PrivilegeMode.READ_WRITE⟩ }
                else none
              | _, _ => none
          else none
        | _, _ => none
      else none

/-! ## FFModel::binary -/

/-- The fields of TensorBase (the logical tensor) that `FFModel::binary` reads
and that the tensor builder sets.  `owner_layer` is the pointer to the owning
layer, given as the position that layer takes in the layer list of the model. -/
structure TensorBase where
  num_dims : Nat
  dims : Nat → Int
  data_type : DataType
  owner_layer : Nat
  owner_idx : Nat
  create_gradients : Bool

/-- The fields of Layer that `FFModel::binary` sets. -/
structure Layer where
  op_type : OperatorType
  name : String
  numInputs : Nat
  numWeights : Nat
  numOutputs : Nat
  inputs : List TensorBase
  outputs : Nat → Option TensorBase
  int_properties : List (String × Int)

/-- Modelled from the spec: the constructor of Layer (layer.cc is not under src).
It records the kind, the name, the counts of inputs, weights and outputs and the
input tensors; the layer has no output tensor and no property yet. -/
def Layer.new (op_type : OperatorType) (name : String) (numInputs numWeights numOutputs : Nat)
    (inputs : List TensorBase) : Layer :=
  { op_type := op_type, name := name, numInputs := numInputs, numWeights := numWeights,
    numOutputs := numOutputs, inputs := inputs, outputs := fun _ => none,
    int_properties := [] }

/-- An operator that is in-place and whose two inputs are one tensor; the output
aliases it. -/
def inplaceSameRegionOp : ElementBinary :=
  { op_type := OperatorType.OP_EW_ADD,
    inputs := fun _ => tensor1d 8 10 11 12 13,
    outputs := fun _ => tensor1d 8 10 11 12 13,
    inplace_a := true,
    has_same_operands := true,
    profiling := false }

/-! ## The constructor of ElementBinary -/

/-- Modelled from the spec: `FFModel::create_parallel_tensor_legion_ordering`
(model.cc is not under src), the builder of a partitioned tensor: the tensor has
the given rank, the given dimension entries at the indices below the rank and the
given data type; no partition or region is assigned to it yet (handles 0). -/
def create_parallel_tensor_legion_ordering (numdim : Nat) (dims : Nat → ParallelDim)
    (data_type : DataType) : ParallelTensorBase :=
  { num_dims := numdim, dims := fun i => if i < numdim then dims i else ⟨0, 0⟩,
    data_type := data_type, part := 0, region := 0, part_grad := 0, region_grad := 0 }

/-- The loop of the constructor (lines 122-125): for every `i < numdim`,
`assert(in1->dims[i] == in2->dims[i])`.  True when no assertion fails. -/
def constructor_dims_check (in1 in2 : ParallelTensorBase) (numdim : Nat) : Bool :=
  (List.range numdim).all (fun i => decide (in1.dims i = in2.dims i))

/-- `ElementBinary::ElementBinary` (lines 99-127): the operator it builds, or
`none` when an assertion fails.  The constructor of the base class Op (not under
src) stores the kind and the two inputs; what it leaves in `has_same_operands`
and `profiling` is given by the two parameters of these names.  The local array
`dims` holds `in1->dims[i]` at every `i < numdim`. -/
def ElementBinary.new (_op_type : OperatorType) (in1 in2 : ParallelTensorBase) (_inplace_a : Bool)
    (has_same_operands profiling : Bool) : Option ElementBinary :=
  if in1.data_type ≠ in2.data_type then none
  else
    let numdim := max in1.num_dims in2.num_dims
    if constructor_dims_check in1 in2 numdim = false then none
    else
      let dims : Nat → ParallelDim := fun i => in1.dims i
      some { op_type := _op_type,
             inputs := fun i => if i = 0 then in1 else in2,
             outputs := fun _ => create_parallel_tensor_legion_ordering numdim dims in1.data_type,
             inplace_a := _inplace_a,
             has_same_operands := has_same_operands,
             profiling := profiling }

/-! ## FFModel::get_or_create_element_binary_node -/

/-- A node of the parallel computation graph (`PCG::Node`): its identifier and the
pointer to its operator, an address in the heap of operators of the model. -/
structure Node where
  guid : Nat
  ptr : Nat
  deriving DecidableEq, Repr

/-- The part of FFModel that `get_or_create_element_binary_node` reads and writes:
the operators allocated by `new ElementBinary` (a pointer is a position of this
list), the map `cached_element_binary_ops` from a hash to a pointer, and the
counter `node_global_guid`.  Modelled from the spec: the type of the counter is
declared in model.h (not under src); the spec describes a monotonically
increasing identifier counter, so it is a natural number. -/
structure FFModelGraph where
  heap : List ElementBinary
  cached_element_binary_ops : Nat → Option Nat
  node_global_guid : Nat

/-- The key computed at lines 600-602, in `size_t` arithmetic (64 bits):
`hash = h1; hash = hash * 31 + h2; hash = hash * 31 + std::hash<int>()(op_type)`,
for the hashes `h1`, `h2` of the two inputs and the hash `hk` of the kind. -/
def element_binary_node_hash (h1 h2 hk : Nat) : Nat :=
  let hash := h1 % 2 ^ 64
  let hash := (hash * 31 + h2) % 2 ^ 64
  (hash * 31 + hk) % 2 ^ 64

/-- `FFModel::get_or_create_element_binary_node` (lines 596-615): the returned
node and the model after the call, or `none` when the constructor aborts.  The
method `get_owner_independent_hash` of a tensor and the hash of the kind,
`std::hash<int>()(op_type)`, are not under src and are the parameters
`tensor_hash` and `kind_hash`; `has_same_operands` and `profiling` are what the
constructor of Op leaves in a new operator. -/
def FFModelGraph.get_or_create_element_binary_node (ff : FFModelGraph)
    (tensor_hash : ParallelTensorBase → Nat) (kind_hash : OperatorType → Nat)
    (has_same_operands profiling : Bool)
    (input1 input2 : ParallelTensorBase) (op_type : OperatorType) : Option (Node × FFModelGraph) :=
  let hash := element_binary_node_hash (tensor_hash input1) (tensor_hash input2) (kind_hash op_type)
  let found : Option (Nat × FFModelGraph) :=
    match ff.cached_element_binary_ops hash with
    | some eb => some (eb, ff)
    | none =>
      match ElementBinary.new op_type input1 input2 false has_same_operands profiling with
      | none => none
      | some obj =>
        let eb := ff.heap.length
        some (eb, { heap := ff.heap ++ [obj],
                    cached_element_binary_ops :=
                      fun k => if k = hash then some eb else ff.cached_element_binary_ops k,
                    node_global_guid := ff.node_global_guid })
  match found with
  | none => none
  | some (eb, ff) =>
    some ({ guid := ff.node_global_guid, ptr := eb },
          { ff with node_global_guid := ff.node_global_guid + 1 })

/-- A model graph with no operator, an empty cache and the counter at 5. -/
def emptyGraph : FFModelGraph :=
  { heap := [], cached_element_binary_ops := fun _ => none, node_global_guid := 5 }

/-! ## Theorems -/

/-- The list of requirements `backward` builds, written out: the output gradient,
operand-1, the gradient of operand-1 when not in-place, and the two requirements
of operand-2 when `inputs[0]->region == inputs[1]->region`. -/
theorem backward_region_requirements (op : ElementBinary) :
    (backward op).region_requirements =
      [⟨TensorRef.output 0, true,
          if op.inplace_a = true then PrivilegeMode.READ_WRITE else PrivilegeMode.READ_ONLY,
          [FieldID.FID_DATA]⟩,
       ⟨TensorRef.input 0, false, PrivilegeMode.READ_ONLY, [FieldID.FID_DATA]⟩] ++
      (if op.inplace_a = true then []
       else [⟨TensorRef.input 0, true, PrivilegeMode.READ_WRITE, [FieldID.FID_DATA]⟩]) ++
      (if (op.inputs 0).region = (op.inputs 1).region then
        [⟨TensorRef.input 1, false, PrivilegeMode.READ_ONLY, [FieldID.FID_DATA]⟩,
         ⟨TensorRef.input 1, true, PrivilegeMode.READ_WRITE, [FieldID.FID_DATA]⟩]
       else []) := by
  cases hi : op.inplace_a <;>
  by_cases hr : (op.inputs 0).region = (op.inputs 1).region <;>
  simp [backward, hi, hr, IndexLauncher.new, IndexLauncher.add_region_requirement,
    IndexLauncher.add_field, add_field_at]

theorem can_inplace_output_dims_iff (op : ElementBinary) :
    can_inplace_output_dims op = true ↔
      ∀ i, i < (op.inputs 0).num_dims → (op.outputs 0).dims i = (op.inputs 0).dims i := by
  unfold can_inplace_output_dims
  simp only [List.all_eq_true, List.mem_range, Bool.not_eq_true', decide_eq_false_iff_not,
    ne_eq, not_not]
  constructor
  · intro h i hi
    exact (h i hi).symm
  · intro h i hi
    exact (h i hi).symm

/-- C1: `can_inplace_output()` returns true if and only if the kind is add or
multiply, the output has the rank of operand-1 and the same dimension entry as
operand-1 at every dimension index; for subtract and divide it returns false
whatever the shapes. -/
theorem C1_can_inplace_output_iff (op : ElementBinary) :
    (can_inplace_output op = true ↔
      (op.op_type = OperatorType.OP_EW_ADD ∨ op.op_type = OperatorType.OP_EW_MUL) ∧
      (op.outputs 0).num_dims = (op.inputs 0).num_dims ∧
      ∀ i, i < (op.inputs 0).num_dims → (op.outputs 0).dims i = (op.inputs 0).dims i) ∧
    ((op.op_type = OperatorType.OP_EW_SUB ∨ op.op_type = OperatorType.OP_EW_DIV) →
      can_inplace_output op = false) := by
  refine ⟨?_, ?_⟩
  · unfold can_inplace_output
    by_cases hk : op.op_type = OperatorType.OP_EW_ADD ∨ op.op_type = OperatorType.OP_EW_MUL
    · by_cases hr : (op.outputs 0).num_dims = (op.inputs 0).num_dims
      · simp [hk, hr, can_inplace_output_dims_iff]
      · simp [hk, hr]
    · simp [hk]
  · intro h
    unfold can_inplace_output
    rcases h with h | h <;> simp [h]

/-- C2: for every pair of flags (inplace_a, has_same_operands) the ordered list of
region requirements that `forward` adds is the row of the table: operand-1
read-write; operand-1 read-write, operand-2 read-only; operand-1 read-only,
output write-only; operand-1 read-only, operand-2 read-only, output write-only;
so the counts are 1, 2, 2 and 3.  In the in-place rows `forward` first asserts
that the output aliases operand-1, and adds nothing when it does not.  Scenario A
gives read-only, read-only, write-only and Scenario B one read-write
requirement. -/
theorem C2_forward_declarations (op : ElementBinary) :
    (op.inplace_a = true → op.has_same_operands = true → output_aliases_input0 op →
      forward op = some ⟨[⟨TensorRef.input 0, false, PrivilegeMode.READ_WRITE, [FieldID.FID_DATA]⟩]⟩) ∧
    (op.inplace_a = true → op.has_same_operands = false → output_aliases_input0 op →
      forward op = some ⟨[⟨TensorRef.input 0, false, PrivilegeMode.READ_WRITE, [FieldID.FID_DATA]⟩,
                          ⟨TensorRef.input 1, false, PrivilegeMode.READ_ONLY, [FieldID.FID_DATA]⟩]⟩) ∧
    (op.inplace_a = false → op.has_same_operands = true →
      forward op = some ⟨[⟨TensorRef.input 0, false, PrivilegeMode.READ_ONLY, [FieldID.FID_DATA]⟩,
                          ⟨TensorRef.output 0, false, PrivilegeMode.WRITE_ONLY, [FieldID.FID_DATA]⟩]⟩) ∧
    (op.inplace_a = false → op.has_same_operands = false →
      forward op = some ⟨[⟨TensorRef.input 0, false, PrivilegeMode.READ_ONLY, [FieldID.FID_DATA]⟩,
                          ⟨TensorRef.input 1, false, PrivilegeMode.READ_ONLY, [FieldID.FID_DATA]⟩,
                          ⟨TensorRef.output 0, false, PrivilegeMode.WRITE_ONLY, [FieldID.FID_DATA]⟩]⟩) ∧
    (op.inplace_a = true → ¬ output_aliases_input0 op → forward op = none) ∧
    (∀ l, forward op = some l →
      l.region_requirements.length =
        (match op.inplace_a, op.has_same_operands with
         | true, true => 1
         | true, false => 2
         | false, true => 2
         | false, false => 3)) ∧
    (forward scenarioA).map (fun l => l.region_requirements.map (fun r => r.privilege)) =
      some [PrivilegeMode.READ_ONLY, PrivilegeMode.READ_ONLY, PrivilegeMode.WRITE_ONLY] ∧
    (forward scenarioB).map (fun l => l.region_requirements.map (fun r => r.privilege)) =
      some [PrivilegeMode.READ_WRITE] := by
  refine ⟨?_, ?_, ?_, ?_, ?_, ?_, by decide, by decide⟩
  · intro hi hs ha
    simp [forward, hi, hs, ha, IndexLauncher.new, IndexLauncher.add_region_requirement,
      IndexLauncher.add_field, add_field_at]
  · intro hi hs ha
    simp [forward, hi, hs, ha, IndexLauncher.new, IndexLauncher.add_region_requirement,
      IndexLauncher.add_field, add_field_at]
  · intro hi hs
    simp [forward, hi, hs, IndexLauncher.new, IndexLauncher.add_region_requirement,
      IndexLauncher.add_field, add_field_at]
  · intro hi hs
    simp [forward, hi, hs, IndexLauncher.new, IndexLauncher.add_region_requirement,
      IndexLauncher.add_field, add_field_at]
  · intro hi ha
    simp [forward, hi, ha]
  · intro l hl
    by_cases ha : output_aliases_input0 op <;>
    cases hi : op.inplace_a <;> cases hs : op.has_same_operands <;>
    simp [forward, hi, hs, ha, IndexLauncher.new, IndexLauncher.add_region_requirement,
      IndexLauncher.add_field, add_field_at] at hl <;>
    simp [← hl]

/-- C3 (what the code does): `backward` adds the two requirements of operand-2
exactly when `inputs[0]->region == inputs[1]->region`, so it adds 4 requirements
when in-place and the regions are the same, 2 when in-place and the regions are
distinct, 5 when not in-place and the regions are the same, and 3 when not
in-place and the regions are distinct: the reverse of the counts of the claim. -/
theorem C3_backward_count_on_code (op : ElementBinary) :
    (backward op).region_requirements.length =
      (if op.inplace_a = true then
        (if (op.inputs 0).region = (op.inputs 1).region then 4 else 2)
       else
        (if (op.inputs 0).region = (op.inputs 1).region then 5 else 3)) ∧
    ((sameRegionOp.inputs 0).region = (sameRegionOp.inputs 1).region ∧
      sameRegionOp.inplace_a = false ∧
      (backward sameRegionOp).region_requirements.length = 5) ∧
    ((distinctRegionOp.inputs 0).region ≠ (distinctRegionOp.inputs 1).region ∧
      distinctRegionOp.inplace_a = false ∧
      (backward distinctRegionOp).region_requirements.length = 3) := by
  refine ⟨?_, by decide, by decide⟩
  cases hi : op.inplace_a <;>
  by_cases hr : (op.inputs 0).region = (op.inputs 1).region <;>
  simp [backward, hi, hr, IndexLauncher.new, IndexLauncher.add_region_requirement,
    IndexLauncher.add_field, add_field_at]

/-- C8 (counterexample): for an operator that is not in-place, `init` declares
operand-1 read-write, not read-only. -/
theorem C8_init_not_inplace_read_write :
    distinctRegionOp.inplace_a = false ∧
    init distinctRegionOp true =
      some ⟨[⟨TensorRef.input 0, false, PrivilegeMode.READ_WRITE, [FieldID.FID_DATA]⟩,
             ⟨TensorRef.input 1, false, PrivilegeMode.READ_WRITE, [FieldID.FID_DATA]⟩,
             ⟨TensorRef.output 0, false, PrivilegeMode.WRITE_ONLY, [FieldID.FID_DATA]⟩]⟩ ∧
    ¬ (∀ l, init distinctRegionOp true = some l →
        ∃ r, l.region_requirements.head? = some r ∧ r.tensor = TensorRef.input 0 ∧
          r.privilege = (if distinctRegionOp.inplace_a = true then PrivilegeMode.READ_WRITE
                         else PrivilegeMode.READ_ONLY)) := by
  refine ⟨by decide, by decide, ?_⟩
  intro h
  obtain ⟨r, hr, _, hp⟩ := h
    ⟨[⟨TensorRef.input 0, false, PrivilegeMode.READ_WRITE, [FieldID.FID_DATA]⟩,
      ⟨TensorRef.input 1, false, PrivilegeMode.READ_WRITE, [FieldID.FID_DATA]⟩,
      ⟨TensorRef.output 0, false, PrivilegeMode.WRITE_ONLY, [FieldID.FID_DATA]⟩]⟩ (by decide)
  simp only [List.head?_cons, Option.some.injEq] at hr
  subst hr
  revert hp
  decide

/-- C8 (amended): when its assertions hold, `init` declares operand-1 first and
read-write whether in-place or not, then operand-2 (read-write) if and only if
has_same_operands is false, then the output (write-only) if and only if not
in-place.  It adds nothing when `check_output_input_weight_same_parallel_is()`
fails or when in-place and the output does not alias operand-1. -/
theorem C8_init_declarations (op : ElementBinary) :
    init op false = none ∧
    (op.inplace_a = true → ¬ output_aliases_input0 op → init op true = none) ∧
    ((op.inplace_a = false ∨ output_aliases_input0 op) →
      ∃ l, init op true = some l ∧
        l.region_requirements =
          [⟨TensorRef.input 0, false, PrivilegeMode.READ_WRITE, [FieldID.FID_DATA]⟩] ++
          (if op.has_same_operands = false then
            [⟨TensorRef.input 1, false, PrivilegeMode.READ_WRITE, [FieldID.FID_DATA]⟩] else []) ++
          (if op.inplace_a = false then
            [⟨TensorRef.output 0, false, PrivilegeMode.WRITE_ONLY, [FieldID.FID_DATA]⟩] else []) ∧
        l.region_requirements.head? =
          some ⟨TensorRef.input 0, false, PrivilegeMode.READ_WRITE, [FieldID.FID_DATA]⟩ ∧
        ((∃ r, r ∈ l.region_requirements ∧ r.tensor = TensorRef.input 1) ↔
          op.has_same_operands = false) ∧
        ((∃ r, r ∈ l.region_requirements ∧ r.tensor = TensorRef.output 0) ↔
          op.inplace_a = false) ∧
        (∀ r, r ∈ l.region_requirements → r.tensor = TensorRef.output 0 →
          r.privilege = PrivilegeMode.WRITE_ONLY)) := by
  refine ⟨by simp [init], ?_, ?_⟩
  · intro hi ha
    simp [init, hi, ha]
  · intro h
    cases hi : op.inplace_a <;> cases hs : op.has_same_operands
    all_goals
      first
      | (have ha : output_aliases_input0 op := by
          rcases h with h | h
          · simp [hi] at h
          · exact h
         simp [init, hi, hs, ha, IndexLauncher.new, IndexLauncher.add_region_requirement,
           IndexLauncher.add_field, add_field_at])
      | simp [init, hi, hs, IndexLauncher.new, IndexLauncher.add_region_requirement,
           IndexLauncher.add_field, add_field_at]

/-- C8 (instance of the amended statement): Scenario A satisfies the side
condition, being not in-place. -/
theorem C8_init_declarations_witness :
    ∃ l, init scenarioA true = some l ∧
      l.region_requirements.head? =
        some ⟨TensorRef.input 0, false, PrivilegeMode.READ_WRITE, [FieldID.FID_DATA]⟩ := by
  obtain ⟨l, h1, _, h3, _⟩ := (C8_init_declarations scenarioA).2.2 (Or.inl (by decide))
  exact ⟨l, h1, h3⟩

/-- C9: in the list built by `backward` the output-gradient requirement (the
first one) is read-write when in-place and read-only otherwise, the operand-1
data requirement (the second one) is present and read-only in every case, and a
requirement of the gradient of operand-1 is present if and only if not in-place,
in which case it is read-write. -/
theorem C9_backward_modes (op : ElementBinary) :
    (backward op).region_requirements[0]? =
      some ⟨TensorRef.output 0, true,
        if op.inplace_a = true then PrivilegeMode.READ_WRITE else PrivilegeMode.READ_ONLY,
        [FieldID.FID_DATA]⟩ ∧
    (∀ r, r ∈ (backward op).region_requirements → r.tensor = TensorRef.output 0 →
      r.grad = true ∧
      r.privilege =
        (if op.inplace_a = true then PrivilegeMode.READ_WRITE else PrivilegeMode.READ_ONLY)) ∧
    (backward op).region_requirements[1]? =
      some ⟨TensorRef.input 0, false, PrivilegeMode.READ_ONLY, [FieldID.FID_DATA]⟩ ∧
    (∀ r, r ∈ (backward op).region_requirements → r.tensor = TensorRef.input 0 →
      r.grad = false → r.privilege = PrivilegeMode.READ_ONLY) ∧
    ((∃ r, r ∈ (backward op).region_requirements ∧ r.tensor = TensorRef.input 0 ∧ r.grad = true) ↔
      op.inplace_a = false) ∧
    (∀ r, r ∈ (backward op).region_requirements → r.tensor = TensorRef.input 0 →
      r.grad = true → r.privilege = PrivilegeMode.READ_WRITE) := by
  rw [backward_region_requirements]
  cases hi : op.inplace_a <;>
  by_cases hr : (op.inputs 0).region = (op.inputs 1).region <;>
  simp [hr]

/-- C5: the operator-kind gate of `forward_task` (run when has_same_operands is
false) accepts a pair of operand domains if and only if the two domains are
identical or the kind is add or subtract; multiply and divide are rejected on any
mismatch, and `forward_task` aborts when the gate rejects.  Operand shapes [4,1]
and [4,4] are accepted for add and rejected for multiply. -/
theorem C5_forward_task_kind_gate (m : ElementBinaryMeta) (in1_domain in2_domain : Domain) :
    (forward_task_kind_gate m in1_domain in2_domain = true ↔
      (in1_domain = in2_domain ∨ m.op_type = OperatorType.OP_EW_ADD ∨
        m.op_type = OperatorType.OP_EW_SUB)) ∧
    ((m.op_type = OperatorType.OP_EW_MUL ∨ m.op_type = OperatorType.OP_EW_DIV) →
      in1_domain ≠ in2_domain → forward_task_kind_gate m in1_domain in2_domain = false) ∧
    (∀ (rest : List Domain) (regions : List PhysicalRegion), m.has_same_operands = false →
      forward_task_kind_gate m in1_domain in2_domain = false →
      forward_task m (in1_domain :: in2_domain :: rest) regions = none) ∧
    (∀ (r0 r1 : PhysicalRegion), m.has_same_operands = false → m.inplace_a = true →
      ((forward_task m [in1_domain, in2_domain] [r0, r1]).isSome =
        forward_task_kind_gate m in1_domain in2_domain)) ∧
    (∀ (r0 r1 r2 : PhysicalRegion), m.has_same_operands = false → m.inplace_a = false →
      ((forward_task m [in1_domain, in2_domain, in1_domain] [r0, r1, r2]).isSome =
        forward_task_kind_gate m in1_domain in2_domain)) ∧
    forward_task_kind_gate ⟨OperatorType.OP_EW_ADD, false, false, false⟩
      (Domain.ofExtents [4, 1]) (Domain.ofExtents [4, 4]) = true ∧
    forward_task_kind_gate ⟨OperatorType.OP_EW_MUL, false, false, false⟩
      (Domain.ofExtents [4, 1]) (Domain.ofExtents [4, 4]) = false := by
  refine ⟨?_, ?_, ?_, ?_, ?_, by decide, by decide⟩
  · unfold forward_task_kind_gate
    by_cases hd : in1_domain = in2_domain
    · simp [hd]
    · simp [hd]
      tauto
  · intro hk hd
    unfold forward_task_kind_gate
    rcases hk with hk | hk <;> simp [hd, hk]
  · intro rest regions hs hg
    simp [forward_task, hs, hg]
  · intro r0 r1 hs hi
    cases hg : forward_task_kind_gate m in1_domain in2_domain <;>
    simp [forward_task, hs, hi, hg]
  · intro r0 r1 r2 hs hi
    cases hg : forward_task_kind_gate m in1_domain in2_domain <;>
    simp [forward_task, hs, hi, hg]

/-- The constructor of ElementBinary returns an operator exactly when the two
data types are equal and the dimension entries of the two inputs agree at every
index below the larger rank. -/
theorem ElementBinary_new_isSome_iff (op_type : OperatorType) (in1 in2 : ParallelTensorBase)
    (inplace_a has_same_operands profiling : Bool) :
    (ElementBinary.new op_type in1 in2 inplace_a has_same_operands profiling).isSome = true ↔
      in1.data_type = in2.data_type ∧
      ∀ i, i < max in1.num_dims in2.num_dims → in1.dims i = in2.dims i := by
  unfold ElementBinary.new
  by_cases hd : in1.data_type = in2.data_type
  · cases hc : constructor_dims_check in1 in2 (max in1.num_dims in2.num_dims)
    · have : ¬ ∀ i, i < max in1.num_dims in2.num_dims → in1.dims i = in2.dims i := by
        intro h
        have : constructor_dims_check in1 in2 (max in1.num_dims in2.num_dims) = true := by
          simpa [constructor_dims_check, List.all_eq_true] using h
        rw [hc] at this
        exact absurd this (by decide)
      constructor
      · intro h
        simp [hd, hc] at h
      · rintro ⟨_, h⟩
        exact absurd h this
    · have : ∀ i, i < max in1.num_dims in2.num_dims → in1.dims i = in2.dims i := by
        simpa [constructor_dims_check, List.all_eq_true] using hc
      simp only [hd, hc]
      simpa using this
  · simp [hd]

/-- C13: for every operator that the constructor of ElementBinary builds without
an assertion failure from operands where the rank of operand-1 is at least the
rank of operand-2, the output has the rank of operand-1 and the dimension entry of
operand-1 at every index, so the shape test of `can_inplace_output` passes and
`can_inplace_output()` returns true exactly when the kind is add or multiply. -/
theorem C13_constructed_operator_can_inplace (op_type : OperatorType)
    (in1 in2 : ParallelTensorBase) (inplace_a has_same_operands profiling : Bool)
    (op : ElementBinary)
    (hnew : ElementBinary.new op_type in1 in2 inplace_a has_same_operands profiling = some op)
    (hrank : in2.num_dims ≤ in1.num_dims) :
    op.op_type = op_type ∧ op.inputs 0 = in1 ∧ op.inputs 1 = in2 ∧
    (op.outputs 0).num_dims = in1.num_dims ∧
    (∀ i, i < in1.num_dims → (op.outputs 0).dims i = in1.dims i) ∧
    (op.outputs 0).num_dims = (op.inputs 0).num_dims ∧
    can_inplace_output_dims op = true ∧
    (can_inplace_output op = true ↔
      (op_type = OperatorType.OP_EW_ADD ∨ op_type = OperatorType.OP_EW_MUL)) := by
  unfold ElementBinary.new at hnew
  by_cases hd : in1.data_type = in2.data_type
  · cases hc : constructor_dims_check in1 in2 (max in1.num_dims in2.num_dims)
    · simp [hd, hc] at hnew
    · simp only [hd, hc, ne_eq, not_true_eq_false, if_false, Bool.true_eq_false,
        Option.some.injEq] at hnew
      subst hnew
      have hmax : max in1.num_dims in2.num_dims = in1.num_dims := max_eq_left hrank
      have hdims : ∀ i, i < in1.num_dims →
          (create_parallel_tensor_legion_ordering (max in1.num_dims in2.num_dims)
            (fun i => in1.dims i) in1.data_type).dims i = in1.dims i := by
        intro i hi
        simp [create_parallel_tensor_legion_ordering, hmax, hi]
      have hloop : can_inplace_output_dims
          { op_type := op_type, inputs := fun i => if i = 0 then in1 else in2,
            outputs := fun _ => create_parallel_tensor_legion_ordering
              (max in1.num_dims in2.num_dims) (fun i => in1.dims i) in1.data_type,
            inplace_a := inplace_a, has_same_operands := has_same_operands,
            profiling := profiling } = true := by
        simp only [can_inplace_output_dims, List.all_eq_true, List.mem_range]
        intro i hi
        have hi1 : i < in1.num_dims := by simpa using hi
        simp [hdims i hi1]
      refine ⟨rfl, rfl, rfl, ?_, hdims, ?_, hloop, ?_⟩
      · simp [create_parallel_tensor_legion_ordering, hmax]
      · simp [create_parallel_tensor_legion_ordering, hmax]
      · unfold can_inplace_output
        by_cases hk : op_type = OperatorType.OP_EW_ADD ∨ op_type = OperatorType.OP_EW_MUL
        · simp only [hk, if_true, iff_true]
          rw [if_neg]
          · exact hloop
          · simp [create_parallel_tensor_legion_ordering, hmax]
        · simp [hk]
  · simp [hd] at hnew

/-- C13 (instance): the constructor builds an add operator from two operands of
extents [4,4]; the ranks are equal and `can_inplace_output()` returns true. -/
theorem C13_constructed_add_can_inplace :
    ∃ op, ElementBinary.new OperatorType.OP_EW_ADD (tensor44 10 11 12 13) (tensor44 20 21 22 23)
        false false false = some op ∧
      (tensor44 20 21 22 23).num_dims ≤ (tensor44 10 11 12 13).num_dims ∧
      (op.outputs 0).num_dims = 2 ∧ can_inplace_output op = true := by
  obtain ⟨op, hop⟩ := Option.isSome_iff_exists.1
    (show (ElementBinary.new OperatorType.OP_EW_ADD (tensor44 10 11 12 13) (tensor44 20 21 22 23)
      false false false).isSome = true by decide)
  have h := C13_constructed_operator_can_inplace OperatorType.OP_EW_ADD (tensor44 10 11 12 13)
    (tensor44 20 21 22 23) false false false op hop (by decide)
  exact ⟨op, hop, by decide, h.2.2.2.1, h.2.2.2.2.2.2.2.2 (Or.inl rfl)⟩

/-- A call of `get_or_create_element_binary_node` aborts exactly when the key is
not in the cache and the constructor of ElementBinary aborts. -/
theorem get_or_create_eq_none_iff (ff : FFModelGraph) (tensor_hash : ParallelTensorBase → Nat)
    (kind_hash : OperatorType → Nat) (has_same_operands profiling : Bool)
    (input1 input2 : ParallelTensorBase) (op_type : OperatorType) :
    ff.get_or_create_element_binary_node tensor_hash kind_hash has_same_operands profiling
        input1 input2 op_type = none ↔
      (ff.cached_element_binary_ops
          (element_binary_node_hash (tensor_hash input1) (tensor_hash input2)
            (kind_hash op_type)) = none ∧
        ElementBinary.new op_type input1 input2 false has_same_operands profiling = none) := by
  unfold FFModelGraph.get_or_create_element_binary_node
  cases hf : ff.cached_element_binary_ops
      (element_binary_node_hash (tensor_hash input1) (tensor_hash input2) (kind_hash op_type))
  · cases hn : ElementBinary.new op_type input1 input2 false has_same_operands profiling <;>
      simp [hf, hn]
  · simp [hf]

/-- C11: when a call of `get_or_create_element_binary_node` returns a node and the
next call computes the same cache key, the next call returns too, its node points
to the same operator object and its identifier is different from and strictly
greater than the first one, and it leaves the cache and the operators unchanged
(it is a hit).  When the first call is a miss, the operator is constructed with
inplace_a = false, allocated and stored under the key, the other keys being kept;
when it is a hit, the cached pointer is returned and the cache is left
unchanged. -/
theorem C11_node_cache (ff : FFModelGraph) (tensor_hash : ParallelTensorBase → Nat)
    (kind_hash : OperatorType → Nat) (hs1 prof1 hs2 prof2 : Bool)
    (a1 a2 b1 b2 : ParallelTensorBase) (k1 k2 : OperatorType) (n1 : Node) (ff1 : FFModelGraph)
    (hkey : element_binary_node_hash (tensor_hash a1) (tensor_hash a2) (kind_hash k1) =
      element_binary_node_hash (tensor_hash b1) (tensor_hash b2) (kind_hash k2))
    (h1 : ff.get_or_create_element_binary_node tensor_hash kind_hash hs1 prof1 a1 a2 k1 =
      some (n1, ff1)) :
    (∃ n2 ff2,
      ff1.get_or_create_element_binary_node tensor_hash kind_hash hs2 prof2 b1 b2 k2 =
        some (n2, ff2) ∧
      n2.ptr = n1.ptr ∧ n1.guid ≠ n2.guid ∧ n1.guid < n2.guid ∧
      ff2.cached_element_binary_ops = ff1.cached_element_binary_ops ∧ ff2.heap = ff1.heap) ∧
    (ff.cached_element_binary_ops
        (element_binary_node_hash (tensor_hash a1) (tensor_hash a2) (kind_hash k1)) = none →
      ∃ obj, ElementBinary.new k1 a1 a2 false hs1 prof1 = some obj ∧ obj.inplace_a = false ∧
        n1.ptr = ff.heap.length ∧ ff1.heap = ff.heap ++ [obj] ∧ ff1.heap[n1.ptr]? = some obj ∧
        ff1.cached_element_binary_ops
          (element_binary_node_hash (tensor_hash a1) (tensor_hash a2) (kind_hash k1)) =
            some n1.ptr ∧
        ∀ k, k ≠ element_binary_node_hash (tensor_hash a1) (tensor_hash a2) (kind_hash k1) →
          ff1.cached_element_binary_ops k = ff.cached_element_binary_ops k) ∧
    (∀ eb, ff.cached_element_binary_ops
        (element_binary_node_hash (tensor_hash a1) (tensor_hash a2) (kind_hash k1)) = some eb →
      n1.ptr = eb ∧ ff1.cached_element_binary_ops = ff.cached_element_binary_ops ∧
        ff1.heap = ff.heap) ∧
    n1.guid = ff.node_global_guid ∧ ff1.node_global_guid = ff.node_global_guid + 1 := by
  unfold FFModelGraph.get_or_create_element_binary_node at h1
  cases hf : ff.cached_element_binary_ops
      (element_binary_node_hash (tensor_hash a1) (tensor_hash a2) (kind_hash k1)) with
  | some eb =>
    simp only [hf, Option.some.injEq, Prod.mk.injEq] at h1
    obtain ⟨rfl, rfl⟩ := h1
    refine ⟨⟨⟨ff.node_global_guid + 1, eb⟩,
      { heap := ff.heap, cached_element_binary_ops := ff.cached_element_binary_ops,
        node_global_guid := ff.node_global_guid + 1 + 1 }, ?_, rfl, ?_, ?_, rfl, rfl⟩, ?_, ?_, rfl, rfl⟩
    · simp [FFModelGraph.get_or_create_element_binary_node, ← hkey, hf]
    · simp
    · simp
    · intro h
      simp at h
    · intro eb2 h
      simp only [Option.some.injEq] at h
      exact ⟨h, rfl, rfl⟩
  | none =>
    cases hn : ElementBinary.new k1 a1 a2 false hs1 prof1 with
    | none => simp [hf, hn] at h1
    | some obj =>
      simp only [hf, hn, Option.some.injEq, Prod.mk.injEq] at h1
      obtain ⟨rfl, rfl⟩ := h1
      refine ⟨⟨⟨ff.node_global_guid + 1, ff.heap.length⟩,
        { heap := ff.heap ++ [obj],
          cached_element_binary_ops := fun k =>
            if k = element_binary_node_hash (tensor_hash a1) (tensor_hash a2) (kind_hash k1)
            then some ff.heap.length else ff.cached_element_binary_ops k,
          node_global_guid := ff.node_global_guid + 1 + 1 }, ?_, rfl, ?_, ?_, rfl, rfl⟩,
        ?_, ?_, rfl, rfl⟩
      · simp [FFModelGraph.get_or_create_element_binary_node, ← hkey]
      · simp
      · simp
      · intro _
        refine ⟨obj, rfl, ?_, rfl, rfl, ?_, ?_, ?_⟩
        · unfold ElementBinary.new at hn
          by_cases hd : a1.data_type = a2.data_type
          · cases hc : constructor_dims_check a1 a2 (max a1.num_dims a2.num_dims)
            · simp [hd, hc] at hn
            · simp only [hd, hc, ne_eq, not_true_eq_false, if_false, Bool.true_eq_false,
                Option.some.injEq] at hn
              rw [← hn]
          · simp [hd] at hn
        · simp
        · simp
        · intro k hk
          simp [hk]
      · intro eb h
        simp at h

/-- C11 (instance): in a model with an empty cache, two successive calls for the
same operands and kind both return; the two nodes point to the same operator and
the second identifier is greater. -/
theorem C11_two_calls_share_operator :
    ∃ n1 ff1 n2 ff2,
      emptyGraph.get_or_create_element_binary_node (fun t => t.region) (fun _ => 7) false false
        (tensor44 10 11 12 13) (tensor44 20 21 22 23) OperatorType.OP_EW_ADD = some (n1, ff1) ∧
      ff1.get_or_create_element_binary_node (fun t => t.region) (fun _ => 7) false false
        (tensor44 10 11 12 13) (tensor44 20 21 22 23) OperatorType.OP_EW_ADD = some (n2, ff2) ∧
      n2.ptr = n1.ptr ∧ n1.guid < n2.guid ∧ n1.guid = 5 := by
  obtain ⟨⟨n1, ff1⟩, h1⟩ := Option.isSome_iff_exists.1
    (show (emptyGraph.get_or_create_element_binary_node (fun t => t.region) (fun _ => 7) false
      false (tensor44 10 11 12 13) (tensor44 20 21 22 23) OperatorType.OP_EW_ADD).isSome = true
      by decide)
  obtain ⟨⟨n2, ff2, h2, hp, _, hg, _, _⟩, _, _, hn, _⟩ :=
    C11_node_cache emptyGraph (fun t => t.region) (fun _ => 7) false false false false
      (tensor44 10 11 12 13) (tensor44 20 21 22 23) (tensor44 10 11 12 13) (tensor44 20 21 22 23)
      OperatorType.OP_EW_ADD OperatorType.OP_EW_ADD n1 ff1 rfl h1
  exact ⟨n1, ff1, n2, ff2, h1, h2, hp, hg, hn⟩

/-- The number of requirements `init` adds: one for operand-1, one for operand-2
unless has_same_operands, one for the output unless in-place. -/
theorem init_count (op : ElementBinary) (l : IndexLauncher) (h : init op true = some l) :
    l.region_requirements.length =
      1 + (if op.has_same_operands = false then 1 else 0) +
        (if op.inplace_a = false then 1 else 0) := by
  by_cases ha : output_aliases_input0 op <;>
  cases hi : op.inplace_a <;> cases hs : op.has_same_operands <;>
  simp [init, hi, hs, ha, IndexLauncher.new, IndexLauncher.add_region_requirement,
    IndexLauncher.add_field, add_field_at] at h <;>
  simp [← h]

/-- The number of requirements `forward` adds: one for operand-1, one for
operand-2 unless has_same_operands, one for the output unless in-place. -/
theorem forward_count (op : ElementBinary) (l : IndexLauncher) (h : forward op = some l) :
    l.region_requirements.length =
      1 + (if op.has_same_operands = false then 1 else 0) +
        (if op.inplace_a = false then 1 else 0) := by
  by_cases ha : output_aliases_input0 op <;>
  cases hi : op.inplace_a <;> cases hs : op.has_same_operands <;>
  simp [forward, hi, hs, ha, IndexLauncher.new, IndexLauncher.add_region_requirement,
    IndexLauncher.add_field, add_field_at] at h <;>
  simp [← h]

/-- When `init_task` returns, its counter `num_regions` is one, plus one unless
has_same_operands, plus one unless in-place, and it is the number of physical
regions and of region requirements of the task (the two final assertions). -/
theorem init_task_some (eb : ElementBinary) (tr : List Domain) (regs : List PhysicalRegion)
    (res : InitResult) (h : init_task eb tr regs = some res) :
    res.num_regions =
      1 + (if eb.has_same_operands = false then 1 else 0) +
        (if eb.inplace_a = false then 1 else 0) ∧
    regs.length = res.num_regions ∧ tr.length = regs.length := by
  cases h0 : tr[0]? <;> cases h1 : tr[1]? <;> cases h2 : tr[2]? <;>
  cases hi : eb.inplace_a <;> cases hs : eb.has_same_operands <;>
  simp [init_task, hi, hs, h0, h1, h2] at h
  all_goals try split_ifs at h
  all_goals try simp at h
  all_goals
    obtain ⟨⟨ht, hr⟩, rfl⟩ := h
    simp [ht, hr]

/-- When `forward_task` returns, the number of regions is the one its branch
asserts: 1, 2, 2 or 3 by the flags. -/
theorem forward_task_some (m : ElementBinaryMeta) (tr : List Domain)
    (regs : List PhysicalRegion) (p : ForwardPointers) (h : forward_task m tr regs = some p) :
    regs.length =
      1 + (if m.has_same_operands = false then 1 else 0) +
        (if m.inplace_a = false then 1 else 0) ∧
    tr.length = regs.length := by
  unfold forward_task at h
  cases hi : m.inplace_a <;> cases hs : m.has_same_operands <;>
  simp only [hi, hs] at h <;>
  repeat' split at h
  all_goals first
    | contradiction
    | (rename_i hc
       simp [hc.1, hc.2])
    | (rename_i hc _ _ _ _
       simp [hc.1, hc.2])

/-- When `backward_task` returns, the number of regions is one of those its branch
asserts: 2 or 4 when in-place, 3 or 5 otherwise. -/
theorem backward_task_some (m : ElementBinaryMeta) (tr : List Domain)
    (regs : List PhysicalRegion) (p : BackwardPointers) (h : backward_task m tr regs = some p) :
    (if m.inplace_a = true then regs.length = 2 ∨ regs.length = 4
     else regs.length = 3 ∨ regs.length = 5) ∧
    tr.length = regs.length := by
  unfold backward_task at h
  repeat' split at h
  all_goals first
    | contradiction
    | simp_all

/-- On as many regions as its flags call for, `init_task` aborts only when the
broadcast check fails (which needs an operator that is not in-place). -/
theorem init_task_none (eb : ElementBinary) (tr : List Domain) (regs : List PhysicalRegion)
    (ht : tr.length =
      1 + (if eb.has_same_operands = false then 1 else 0) +
        (if eb.inplace_a = false then 1 else 0))
    (hr : regs.length = tr.length) (h : init_task eb tr regs = none) :
    eb.inplace_a = false ∧
    ∃ d1 d2 dout, tr[0]? = some d1 ∧
      tr[if eb.has_same_operands = false then 1 else 0]? = some d2 ∧
      tr[tr.length - 1]? = some dout ∧ init_task_broadcast_check d1 d2 dout = false := by
  cases hi : eb.inplace_a <;> cases hs : eb.has_same_operands <;>
  simp only [hi, hs] at ht <;>
  rcases tr with _ | ⟨a, _ | ⟨b, _ | ⟨c, _ | ⟨d, tl⟩⟩⟩⟩ <;> simp at ht <;>
  rcases regs with _ | ⟨r0, _ | ⟨r1, _ | ⟨r2, _ | ⟨r3, rl⟩⟩⟩⟩ <;> simp at hr <;>
  simp [init_task, hi, hs] at h ⊢
  all_goals
    split_ifs at h with hc
    · simp at h
    · simpa using hc

/-- On as many regions as its flags call for, `forward_task` aborts only when the
kind gate rejects the operand domains or the output domain differs from the
domain of operand-1. -/
theorem forward_task_none (m : ElementBinaryMeta) (tr : List Domain)
    (regs : List PhysicalRegion)
    (ht : tr.length =
      1 + (if m.has_same_operands = false then 1 else 0) +
        (if m.inplace_a = false then 1 else 0))
    (hr : regs.length = tr.length) (h : forward_task m tr regs = none) :
    (m.has_same_operands = false ∧
      ∃ a b, tr[0]? = some a ∧ tr[1]? = some b ∧ forward_task_kind_gate m a b = false) ∨
    (m.inplace_a = false ∧
      ∃ a o, tr[0]? = some a ∧ tr[tr.length - 1]? = some o ∧ o ≠ a) := by
  cases hi : m.inplace_a <;> cases hs : m.has_same_operands <;>
  simp only [hi, hs] at ht <;>
  rcases tr with _ | ⟨a, _ | ⟨b, _ | ⟨c, _ | ⟨d, tl⟩⟩⟩⟩ <;> simp at ht <;>
  rcases regs with _ | ⟨r0, _ | ⟨r1, _ | ⟨r2, _ | ⟨r3, rl⟩⟩⟩⟩ <;> simp at hr <;>
  simp [forward_task, hi, hs] at h ⊢
  all_goals first
    | exact h
    | (cases hg : forward_task_kind_gate m a b
       · exact Or.inl rfl
       · exact Or.inr (h hg))

/-- On a number of regions that its branch admits, `backward_task` aborts only
when one of its domain equalities fails. -/
theorem backward_task_none (m : ElementBinaryMeta) (tr : List Domain)
    (regs : List PhysicalRegion)
    (ht : if m.inplace_a = true then tr.length = 2 ∨ tr.length = 4
          else tr.length = 3 ∨ tr.length = 5)
    (hr : regs.length = tr.length) (h : backward_task m tr regs = none) :
    (∃ a b, tr[0]? = some a ∧ tr[1]? = some b ∧ b ≠ a) ∨
    (m.inplace_a = false ∧ ∃ a b, tr[0]? = some a ∧ tr[2]? = some b ∧ a ≠ b) ∨
    (m.inplace_a = false ∧ ∃ a b, tr[3]? = some a ∧ tr[4]? = some b ∧ a ≠ b) := by
  cases hi : m.inplace_a <;>
  simp only [hi] at ht <;>
  rcases tr with _ | ⟨a, _ | ⟨b, _ | ⟨c, _ | ⟨d, _ | ⟨e, _ | ⟨f, tl⟩⟩⟩⟩⟩⟩ <;> simp at ht <;>
  rcases regs with _ | ⟨r0, _ | ⟨r1, _ | ⟨r2, _ | ⟨r3, _ | ⟨r4, _ | ⟨r5, rl⟩⟩⟩⟩⟩⟩ <;>
  simp at hr <;>
  simp [backward_task, hi] at h ⊢
  all_goals first
    | exact h
    | (by_cases hab : b = a
       · subst hab
         simp only [true_implies, not_true_eq_false, false_or] at h ⊢
         by_cases hbc : b = c
         · first
             | exact absurd hbc h
             | (right
                simpa [hbc] using h)
         · first
             | exact hbc
             | exact Or.inl hbc
       · first
           | exact Or.inl hab)

/-- The number of requirements `backward` adds is 2 or 4 when in-place and 3 or 5
otherwise. -/
theorem backward_count (op : ElementBinary) :
    if op.inplace_a = true then
      (backward op).region_requirements.length = 2 ∨ (backward op).region_requirements.length = 4
    else
      (backward op).region_requirements.length = 3 ∨ (backward op).region_requirements.length = 5 := by
  rw [backward_region_requirements]
  cases hi : op.inplace_a <;>
  by_cases hr : (op.inputs 0).region = (op.inputs 1).region <;>
  simp [hr]

/-- C12: the launcher and the task agree on the number of regions.  The number of
requirements built by `init` is the `num_regions` that `init_task` asserts, the
number built by `forward` is the count `forward_task` asserts for the same flags,
and the number built by `backward` is one of the counts `backward_task` asserts (2
or 4 when in-place, 3 or 5 otherwise).  Given as many regions as the launcher
declared, a task aborts only on one of its domain assertions (broadcast check,
kind gate, domain equalities), never on a count assertion. -/
theorem C12_region_counts_agree (op : ElementBinary) :
    (∀ l, init op true = some l →
      (∀ tr regs res, init_task op tr regs = some res →
        res.num_regions = l.region_requirements.length ∧
        regs.length = l.region_requirements.length ∧
        tr.length = l.region_requirements.length) ∧
      (∀ tr regs, tr.length = l.region_requirements.length →
        regs.length = l.region_requirements.length → init_task op tr regs = none →
        op.inplace_a = false ∧
        ∃ d1 d2 dout, tr[0]? = some d1 ∧
          tr[if op.has_same_operands = false then 1 else 0]? = some d2 ∧
          tr[tr.length - 1]? = some dout ∧ init_task_broadcast_check d1 d2 dout = false)) ∧
    (∀ l m, forward op = some l → m.inplace_a = op.inplace_a →
      m.has_same_operands = op.has_same_operands →
      (∀ tr regs p, forward_task m tr regs = some p →
        regs.length = l.region_requirements.length ∧
        tr.length = l.region_requirements.length) ∧
      (∀ tr regs, tr.length = l.region_requirements.length →
        regs.length = l.region_requirements.length → forward_task m tr regs = none →
        (m.has_same_operands = false ∧
          ∃ a b, tr[0]? = some a ∧ tr[1]? = some b ∧ forward_task_kind_gate m a b = false) ∨
        (m.inplace_a = false ∧
          ∃ a o, tr[0]? = some a ∧ tr[tr.length - 1]? = some o ∧ o ≠ a))) ∧
    (∀ m, m.inplace_a = op.inplace_a →
      (if op.inplace_a = true then
        (backward op).region_requirements.length = 2 ∨
          (backward op).region_requirements.length = 4
       else
        (backward op).region_requirements.length = 3 ∨
          (backward op).region_requirements.length = 5) ∧
      (∀ tr regs p, backward_task m tr regs = some p →
        (if op.inplace_a = true then regs.length = 2 ∨ regs.length = 4
         else regs.length = 3 ∨ regs.length = 5) ∧
        tr.length = regs.length) ∧
      (∀ tr regs, tr.length = (backward op).region_requirements.length →
        regs.length = (backward op).region_requirements.length →
        backward_task m tr regs = none →
        (∃ a b, tr[0]? = some a ∧ tr[1]? = some b ∧ b ≠ a) ∨
        (m.inplace_a = false ∧ ∃ a b, tr[0]? = some a ∧ tr[2]? = some b ∧ a ≠ b) ∨
        (m.inplace_a = false ∧ ∃ a b, tr[3]? = some a ∧ tr[4]? = some b ∧ a ≠ b))) := by
  refine ⟨?_, ?_, ?_⟩
  · intro l hl
    have hn := init_count op l hl
    refine ⟨?_, ?_⟩
    · intro tr regs res h
      obtain ⟨h1, h2, h3⟩ := init_task_some op tr regs res h
      rw [hn]
      exact ⟨h1, h2.trans h1, (h3.trans h2).trans h1⟩
    · intro tr regs ht hr h
      exact init_task_none op tr regs (ht.trans hn) (hr.trans ht.symm) h
  · intro l m hl hi hs
    have hn := forward_count op l hl
    rw [← hi, ← hs] at hn
    refine ⟨?_, ?_⟩
    · intro tr regs p h
      obtain ⟨h1, h2⟩ := forward_task_some m tr regs p h
      rw [hn]
      exact ⟨h1, h2.trans h1⟩
    · intro tr regs ht hr h
      exact forward_task_none m tr regs (ht.trans hn) (hr.trans ht.symm) h
  · intro m hi
    have hn := backward_count op
    refine ⟨hn, ?_, ?_⟩
    · intro tr regs p h
      have := backward_task_some m tr regs p h
      rw [hi] at this
      exact this
    · intro tr regs ht hr h
      refine backward_task_none m tr regs ?_ (hr.trans ht.symm) h
      rw [hi, ht]
      exact hn

/-- C12 (instance): for Scenario A, `init` and `forward` each declare 3 regions
and `backward` declares 3; on three regions of one domain `init_task` returns with
`num_regions` 3, and `forward_task` and `backward_task` return too. -/
theorem C12_scenarioA_counts :
    ∃ l res, init scenarioA true = some l ∧ l.region_requirements.length = 3 ∧
      init_task scenarioA [Domain.ofExtents [4, 4], Domain.ofExtents [4, 4],
        Domain.ofExtents [4, 4]] [0, 1, 2] = some res ∧
      res.num_regions = l.region_requirements.length ∧
      (forward scenarioA).map (fun f => f.region_requirements.length) = some 3 ∧
      (forward_task ⟨OperatorType.OP_EW_ADD, false, false, false⟩
        [Domain.ofExtents [4, 4], Domain.ofExtents [4, 4], Domain.ofExtents [4, 4]]
        [0, 1, 2]).isSome = true ∧
      (backward scenarioA).region_requirements.length = 3 ∧
      (backward_task ⟨OperatorType.OP_EW_ADD, false, false, false⟩
        [Domain.ofExtents [4, 4], Domain.ofExtents [4, 4], Domain.ofExtents [4, 4]]
        [0, 1, 2]).isSome = true := by
  obtain ⟨l, hl⟩ := Option.isSome_iff_exists.1
    (show (init scenarioA true).isSome = true by decide)
  obtain ⟨res, hres⟩ := Option.isSome_iff_exists.1
    (show (init_task scenarioA [Domain.ofExtents [4, 4], Domain.ofExtents [4, 4],
      Domain.ofExtents [4, 4]] [0, 1, 2]).isSome = true by decide)
  have h := ((C12_region_counts_agree scenarioA).1 l hl).1 _ _ res hres
  refine ⟨l, res, hl, ?_, hres, h.1, by decide, by decide, by decide, by decide⟩
  rw [← h.2.1]
  rfl

end FlexFlow
